import Mathlib

/-!
Verification of `assets/scripts/image_processor.py`: a shallow embedding of
the image-normalizing transform (`process_image`) and the batch driver
(`main`), with theorems settling the specified behavioral claims.

Images are modelled by their dimensions and color mode; pixel contents are
not modelled (no claim depends on them).  Python float division in the
aspect-ratio computation is modelled by exact rational arithmetic, and
`int(...)` truncation of the (always non-negative) results by `Nat.floor`.
Python `//` (floor division, possibly on negatives) is modelled by
`Int.fdiv`.  Fallible library calls (decode, save) are injection points of
type `Except String _`; the `try/except` wrapper of `process_image` is the
total function `processImage` returning printed messages plus an optional
written file.
-/

namespace ImageProcessor

/-- A decoded PIL image: intrinsic width, height and color mode. -/
structure PILImage where
  width : Nat
  height : Nat
  mode : String
deriving Repr, DecidableEq

/-- The mode-conversion step of `process_image`:
`if img.mode in ("RGBA", "P"): img = img.convert("RGB")` with double quotes standing in for the Python quotes. -/
def convertToRGB (img : PILImage) : PILImage :=
  if img.mode = "RGBA" ∨ img.mode = "P" then { img with mode := "RGB" } else img

/-- Modelled from the spec: the PIL color modes that carry transparency
(an alpha channel) or are palette-indexed — `RGBA`, `LA`, `PA`, `RGBa`,
`La` (alpha) and `P` (palette).  This is the spec-side predicate used to
compare the sentence of the spec against the literal check in the source. -/
def carriesTransparencyOrPalette (mode : String) : Prop :=
  mode = "RGBA" ∨ mode = "LA" ∨ mode = "PA" ∨ mode = "RGBa" ∨ mode = "La" ∨ mode = "P"

instance (mode : String) : Decidable (carriesTransparencyOrPalette mode) := by
  unfold carriesTransparencyOrPalette
  infer_instance

/-- Resize dimensions computed by `process_image`. -/
structure Dims where
  width : Nat
  height : Nat
deriving Repr, DecidableEq

/-- The aspect-ratio branch of `process_image`, in exact rational
arithmetic:
`aspect_ratio = target_width / target_height`,
`current_aspect_ratio = img_width / img_height`, then either
`(target_width, int(target_width / current_aspect_ratio))` or
`(int(target_height * current_aspect_ratio), target_height)`. -/
def computeResize (imgWidth imgHeight targetWidth targetHeight : Nat) : Dims :=
  let targetAspect : ℚ := (targetWidth : ℚ) / (targetHeight : ℚ)
  let currentAspect : ℚ := (imgWidth : ℚ) / (imgHeight : ℚ)
  if currentAspect > targetAspect then
    { width := targetWidth, height := ⌊(targetWidth : ℚ) / currentAspect⌋₊ }
  else
    { width := ⌊(targetHeight : ℚ) * currentAspect⌋₊, height := targetHeight }

/-- `img.resize((new_width, new_height), ...)`: dimensions change, mode is
kept.  (Pixel resampling is not modelled.) -/
def resize (img : PILImage) (d : Dims) : PILImage :=
  { width := d.width, height := d.height, mode := img.mode }

/-- `Image.new("RGB", (target_width, target_height), "white")`. -/
def newCanvas (w h : Nat) : PILImage :=
  { width := w, height := h, mode := "RGB" }

/-- `canvas.paste(img, pos)`: PIL paste writes pixels into the destination
and never changes the size or mode of the destination. -/
def paste (canvas : PILImage) (_img : PILImage) (_pos : Int × Int) : PILImage :=
  canvas

/-- Python `(target - result) // 2` (floor division on possibly negative
integers). -/
def pasteOffset (target result : Nat) : Int :=
  Int.fdiv ((target : Int) - (result : Int)) 2

/-- ASCII lowercasing of one character (the fragment of `str.lower()`
relevant to extension matching). -/
def lowerChar (c : Char) : Char :=
  if 'A' ≤ c ∧ c ≤ 'Z' then Char.ofNat (c.toNat + 32) else c

/-- `str.lower()`, modelled characterwise. -/
def strToLower (s : String) : String := ⟨s.data.map lowerChar⟩

/-- `str.endswith(suffix)`, modelled on the character lists. -/
def strEndsWith (s suffix : String) : Bool := suffix.data.isSuffixOf s.data

/-- Accumulator loop extracting the part of a path after its last `/`. -/
def lastComponent : List Char → List Char → List Char
  | [], acc => acc.reverse
  | c :: cs, acc => if c = '/' then lastComponent cs [] else lastComponent cs (c :: acc)

/-- `Path(image_path).name`: the final path component (POSIX separator). -/
def baseName (path : String) : String := ⟨lastComponent path.data []⟩

/-- The save-format choice:
`"JPEG" if input_filename.lower().endswith(".jpg") else "PNG"`. -/
def chooseFormat (inputFilename : String) : String :=
  if strEndsWith (strToLower inputFilename) ".jpg" then "JPEG" else "PNG"

/-- The file written by `new_img.save(...)`, with the arguments passed to
the encoder. -/
structure SavedImage where
  filename : String
  directory : String
  format : String
  width : Nat
  height : Nat
  quality : Nat
  optimize : Bool
  dpi : Nat × Nat
  pasteX : Int
  pasteY : Int
deriving Repr, DecidableEq

/-- `print(f"Error processing {image_path}: {str(e)}")`. -/
def errorMessage (imagePath errText : String) : String :=
  "Error processing " ++ imagePath ++ ": " ++ errText

/-- `print(f"Successfully processed {input_filename} -> {output_filename}")`. -/
def successMessage (inputFilename outputFilename : String) : String :=
  "Successfully processed " ++ inputFilename ++ " -> " ++ outputFilename

/-- What one call of `process_image` produces: console lines and an
optional written file.  The function itself never raises (`try/except`
around the whole body), so its embedding is total. -/
structure ProcResult where
  messages : List String
  output : Option SavedImage
deriving Repr, DecidableEq

/-- Shallow embedding of `process_image(image_path, output_dir,
target_width, target_height, target_dpi)`.  `decodeResult` stands for
`Image.open`, `saveResult` for `new_img.save`; an `Except.error` from
either models the exception the `except` clause catches. -/
def processImage (decodeResult : Except String PILImage)
    (saveResult : Except String Unit)
    (imagePath outputDir : String)
    (targetWidth targetHeight targetDpi : Nat) : ProcResult :=
  match decodeResult with
  | .error e => { messages := [errorMessage imagePath e], output := none }
  | .ok img0 =>
    let img1 := convertToRGB img0
    let dims := computeResize img1.width img1.height targetWidth targetHeight
    let resized := resize img1 dims
    let canvas := newCanvas targetWidth targetHeight
    let px := pasteOffset targetWidth resized.width
    let py := pasteOffset targetHeight resized.height
    let pasted := paste canvas resized (px, py)
    let inputFilename := baseName imagePath
    let outputFilename := "processed_" ++ inputFilename
    match saveResult with
    | .error e => { messages := [errorMessage imagePath e], output := none }
    | .ok _ =>
      { messages := [successMessage inputFilename outputFilename],
        output := some
          { filename := outputFilename
            directory := outputDir
            format := chooseFormat inputFilename
            width := pasted.width
            height := pasted.height
            quality := 85
            optimize := true
            dpi := (targetDpi, targetDpi)
            pasteX := px
            pasteY := py } }

/-- The hard-coded input list of `main`. -/
def projectImages : List String :=
  ["sih.png", "personal_capsule.png", "dev_search.png", "RestAPI.jpg"]

/-- A filesystem state for the directory-creation step: the set of
existing directories, each a list of path components. -/
structure Filesystem where
  dirs : List (List String)
deriving Repr, DecidableEq

/-- Parent directory of a path. -/
def parentDir (p : List String) : List String := p.dropLast

/-- `pathlib.Path.mkdir(exist_ok=True)` (with the default
`parents=False`): succeeds when the directory already exists, creates it
when the parent exists, and raises `FileNotFoundError` when the parent is
missing. -/
def mkdirExistOk (fs : Filesystem) (p : List String) : Except String Filesystem :=
  if p ∈ fs.dirs then .ok fs
  else if parentDir p ∈ fs.dirs then .ok ⟨p :: fs.dirs⟩
  else .error "FileNotFoundError"

/-- The directory-setup step of `main`: `output_dir = base_dir / "images"
/ "processed"; output_dir.mkdir(exist_ok=True)`. -/
def setupOutputDir (fs : Filesystem) (base : List String) : Except String Filesystem :=
  mkdirExistOk fs (base ++ ["images", "processed"])

/-- The per-file loop of `main`: for each hard-coded name, check existence
and either delegate to `processImage` or print a not-found line.  The
decode/save oracles are per-path injection points. -/
def batchOutcomes (fileExists : String → Bool)
    (decode : String → Except String PILImage)
    (save : String → Except String Unit)
    (imageDir outputDir : String) : List ProcResult :=
  projectImages.map (fun name =>
    let path := imageDir ++ "/" ++ name
    if fileExists path then
      processImage (decode path) (save path) path outputDir 1280 720 72
    else
      { messages := ["Image not found: " ++ name], output := none })

/-! ### Helper lemmas -/

/-- Nat-floor of a quotient of casts is natural division. -/
lemma floor_cast_mul_div (a b c : Nat) :
    ⌊(a : ℚ) * (b : ℚ) / (c : ℚ)⌋₊ = a * b / c := by
  have h : (a : ℚ) * (b : ℚ) = ((a * b : ℕ) : ℚ) := by push_cast; ring
  rw [h, Nat.floor_div_eq_div]

/-- The rational branch test and floors of `computeResize`, rephrased in
natural-number arithmetic (cross-multiplied comparison, `Nat` division). -/
lemma computeResize_eq (imgWidth imgHeight targetWidth targetHeight : Nat)
    (hh : 0 < imgHeight) (hth : 0 < targetHeight) :
    computeResize imgWidth imgHeight targetWidth targetHeight =
      if imgWidth * targetHeight > targetWidth * imgHeight then
        { width := targetWidth, height := targetWidth * imgHeight / imgWidth }
      else
        { width := targetHeight * imgWidth / imgHeight, height := targetHeight } := by
  have hcmp : ((targetWidth : ℚ) / (targetHeight : ℚ) < (imgWidth : ℚ) / (imgHeight : ℚ)) ↔
      targetWidth * imgHeight < imgWidth * targetHeight := by
    rw [div_lt_div_iff₀ (by exact_mod_cast hth) (by exact_mod_cast hh)]
    exact_mod_cast Iff.rfl
  simp only [computeResize, gt_iff_lt]
  split_ifs with h1 h2 h2
  · rw [div_div_eq_mul_div, floor_cast_mul_div]
  · exact absurd (hcmp.mp h1) h2
  · exact absurd (hcmp.mpr h2) h1
  · rw [← mul_div_assoc, floor_cast_mul_div]

/-- `pasteOffset` as Euclidean division (the dividend sign does not matter
for a positive divisor). -/
lemma pasteOffset_eq_ediv (t n : Nat) : pasteOffset t n = ((t : Int) - (n : Int)) / 2 := by
  unfold pasteOffset
  exact Int.fdiv_eq_ediv _ (by norm_num)

/-- Centering by floor division: the two bars `off` and `t - n - off`
differ by at most one, the far bar being the larger. -/
lemma bars_balanced (t n : Nat) :
    pasteOffset t n ≤ (t : Int) - (n : Int) - pasteOffset t n ∧
    ((t : Int) - (n : Int) - pasteOffset t n) - pasteOffset t n ≤ 1 := by
  rw [pasteOffset_eq_ediv]
  omega

/-- Equality of the two `chooseFormat` outcomes with the suffix test. -/
lemma chooseFormat_iff (name : String) :
    (chooseFormat name = "JPEG" ↔ strEndsWith (strToLower name) ".jpg" = true) ∧
    (chooseFormat name = "PNG" ↔ strEndsWith (strToLower name) ".jpg" = false) := by
  unfold chooseFormat
  cases hend : strEndsWith (strToLower name) ".jpg" <;> simp [hend]

/-- Concrete resize of a 16:9 source to the 16:9 target. -/
lemma sampleResize_eval : computeResize 1920 1080 1280 720 = ⟨1280, 720⟩ := by
  simp only [computeResize]
  rw [if_neg (by norm_num)]
  norm_num

/-- Concrete evaluation of one successful `process_image` run on a
1920x1080 RGB source at path `a/photo.png`. -/
lemma sampleRun_eval :
    (processImage (.ok ⟨1920, 1080, "RGB"⟩) (.ok ()) "a/photo.png" "out" 1280 720 72).output =
      some ⟨"processed_photo.png", "out", "PNG", 1280, 720, 85, true, (72, 72), 0, 0⟩ := by
  simp only [processImage, convertToRGB, resize, paste, newCanvas]
  norm_num [sampleResize_eval, pasteOffset]
  decide

/-! ### Claims -/

/-- C1: the resize dimensions are chosen by comparing aspect ratios: when
`imgWidth / imgHeight > targetWidth / targetHeight` the result is
`(targetWidth, floor(targetWidth / sourceAspect))`, otherwise
`(floor(targetHeight * sourceAspect), targetHeight)` — here stated with
the comparison cross-multiplied and the floors as natural division. -/
theorem resize_dims_aspect_rule (imgWidth imgHeight targetWidth targetHeight : Nat)
    (hh : 0 < imgHeight) (hth : 0 < targetHeight) :
    computeResize imgWidth imgHeight targetWidth targetHeight =
      if imgWidth * targetHeight > targetWidth * imgHeight then
        { width := targetWidth, height := targetWidth * imgHeight / imgWidth }
      else
        { width := targetHeight * imgWidth / imgHeight, height := targetHeight } :=
  computeResize_eq imgWidth imgHeight targetWidth targetHeight hh hth

/-- Witness for C1 at a 4:3 source and the default 16:9 target. -/
theorem resize_dims_aspect_rule_witness :
    0 < 600 ∧ 0 < 720 ∧
    computeResize 800 600 1280 720 =
      (if 800 * 720 > 1280 * 600 then
        { width := 1280, height := 1280 * 600 / 800 }
      else
        { width := 720 * 800 / 600, height := 720 } : Dims) :=
  ⟨by decide, by decide, resize_dims_aspect_rule 800 600 1280 720 (by decide) (by decide)⟩

/-- C2: whenever `process_image` writes an output file, the written
dimensions are exactly the target dimensions, whatever the source
dimensions were. -/
theorem output_dims_are_target (decodeResult : Except String PILImage)
    (saveResult : Except String Unit) (imagePath outputDir : String)
    (targetWidth targetHeight targetDpi : Nat) (out : SavedImage)
    (hout : (processImage decodeResult saveResult imagePath outputDir
      targetWidth targetHeight targetDpi).output = some out) :
    out.width = targetWidth ∧ out.height = targetHeight := by
  cases decodeResult with
  | error e => simp [processImage] at hout
  | ok img =>
    cases saveResult with
    | error e => simp [processImage] at hout
    | ok u =>
      simp only [processImage, paste, newCanvas, Option.some.injEq] at hout
      subst hout
      exact ⟨rfl, rfl⟩

/-- Witness for C2: the output file of the sample run is 1280x720. -/
theorem output_dims_are_target_witness :
    (processImage (.ok ⟨1920, 1080, "RGB"⟩) (.ok ()) "a/photo.png" "out" 1280 720 72).output =
      some (⟨"processed_photo.png", "out", "PNG", 1280, 720, 85, true, (72, 72), 0, 0⟩ : SavedImage) ∧
    (⟨"processed_photo.png", "out", "PNG", 1280, 720, 85, true, (72, 72), 0, 0⟩ : SavedImage).width = 1280 ∧
    (⟨"processed_photo.png", "out", "PNG", 1280, 720, 85, true, (72, 72), 0, 0⟩ : SavedImage).height = 720 :=
  ⟨sampleRun_eval,
   (output_dims_are_target _ _ _ _ 1280 720 72 _ sampleRun_eval).1,
   (output_dims_are_target _ _ _ _ 1280 720 72 _ sampleRun_eval).2⟩

/-- C3: `process_image` never propagates an exception: a decode failure
leaves exactly one console message and no output file, a save failure
after a successful decode likewise, and the message is the source path
followed by the text of the exception; the function has no other way to
signal failure. -/
theorem process_image_catches_all (decodeResult : Except String PILImage)
    (saveResult : Except String Unit) (imagePath outputDir : String)
    (targetWidth targetHeight targetDpi : Nat) :
    (∀ e, decodeResult = .error e →
      processImage decodeResult saveResult imagePath outputDir targetWidth targetHeight targetDpi =
        { messages := [errorMessage imagePath e], output := none }) ∧
    (∀ img e, decodeResult = .ok img → saveResult = .error e →
      processImage decodeResult saveResult imagePath outputDir targetWidth targetHeight targetDpi =
        { messages := [errorMessage imagePath e], output := none }) ∧
    (∀ e, errorMessage imagePath e = "Error processing " ++ (imagePath ++ (": " ++ e))) := by
  refine ⟨?_, ?_, ?_⟩
  · intro e he
    subst he
    rfl
  · intro img e hd hs
    subst hd
    subst hs
    rfl
  · intro e
    simp [errorMessage, String.append_assoc]

/-- Witness for C3: a decode failure is caught and reported. -/
theorem process_image_catches_all_witness :
    processImage (.error "cannot identify image file") (.ok ()) "img.png" "out" 1280 720 72 =
      { messages := [errorMessage "img.png" "cannot identify image file"], output := none } :=
  (process_image_catches_all (.error "cannot identify image file") (.ok ())
    "img.png" "out" 1280 720 72).1 "cannot identify image file" rfl

/-- C4 counterexample: grayscale-with-alpha mode `LA` carries transparency
but `process_image` does not convert it — only `RGBA` and `P` are
converted. -/
theorem convert_misses_LA :
    carriesTransparencyOrPalette "LA" ∧ (convertToRGB ⟨640, 480, "LA"⟩).mode = "LA" := by
  constructor
  · decide
  · decide

/-- C4 amended: the conversion to an opaque three-channel image happens
exactly for the modes `RGBA` and `P`; any other mode — including the
other transparency-carrying modes such as `LA` — is left unchanged. -/
theorem convert_exactly_rgba_p (img : PILImage) :
    (img.mode = "RGBA" ∨ img.mode = "P" → convertToRGB img = { img with mode := "RGB" }) ∧
    (¬(img.mode = "RGBA" ∨ img.mode = "P") → convertToRGB img = img) := by
  constructor
  · intro hmode
    unfold convertToRGB
    rw [if_pos hmode]
  · intro hmode
    unfold convertToRGB
    rw [if_neg hmode]

/-- Witness for C4 amended: `RGBA` is converted, `L` is untouched. -/
theorem convert_exactly_rgba_p_witness :
    convertToRGB ⟨10, 10, "RGBA"⟩ = ⟨10, 10, "RGB"⟩ ∧ convertToRGB ⟨10, 10, "L"⟩ = ⟨10, 10, "L"⟩ :=
  ⟨(convert_exactly_rgba_p ⟨10, 10, "RGBA"⟩).1 (Or.inl rfl),
   (convert_exactly_rgba_p ⟨10, 10, "L"⟩).2 (by decide)⟩

/-- C5: a successful run writes `processed_<basename>`, encoded as JPEG
exactly when the lowercased source filename ends in `.jpg` and as PNG
otherwise (so a `.jpeg` source is saved as PNG), with quality 85, the
optimize flag, and the target DPI. -/
theorem save_name_format_params (img : PILImage) (imagePath outputDir : String)
    (targetWidth targetHeight targetDpi : Nat) :
    ∃ out : SavedImage,
      (processImage (.ok img) (.ok ()) imagePath outputDir
        targetWidth targetHeight targetDpi).output = some out ∧
      out.filename = "processed_" ++ baseName imagePath ∧
      (out.format = "JPEG" ↔ strEndsWith (strToLower (baseName imagePath)) ".jpg" = true) ∧
      (out.format = "PNG" ↔ strEndsWith (strToLower (baseName imagePath)) ".jpg" = false) ∧
      out.quality = 85 ∧ out.optimize = true ∧ out.dpi = (targetDpi, targetDpi) ∧
      chooseFormat "photo.jpeg" = "PNG" := by
  refine ⟨_, rfl, rfl, ?_, ?_, rfl, rfl, rfl, by decide⟩
  · exact (chooseFormat_iff (baseName imagePath)).1
  · exact (chooseFormat_iff (baseName imagePath)).2

/-- C6: a source whose aspect ratio equals the target ratio falls into the
"taller or equal" branch (the rational comparison is not strict there),
exactly fills the canvas, gets zero paste offset on both axes, and the
two branch formulas agree. -/
theorem aspect_equal_fills (w h tw th : Nat)
    (hw : 0 < w) (hh : 0 < h) (htw : 0 < tw) (hth : 0 < th)
    (heq : w * th = tw * h) :
    ¬ ((w : ℚ) / (h : ℚ) > (tw : ℚ) / (th : ℚ)) ∧
    computeResize w h tw th = { width := tw, height := th } ∧
    pasteOffset tw (computeResize w h tw th).width = 0 ∧
    pasteOffset th (computeResize w h tw th).height = 0 ∧
    tw * h / w = th ∧ th * w / h = tw := by
  have hwidth : th * w / h = tw := by
    rw [mul_comm th w, heq, Nat.mul_div_cancel _ hh]
  have hheight : tw * h / w = th := by
    rw [← heq, Nat.mul_div_cancel_left _ hw]
  have hres : computeResize w h tw th = { width := tw, height := th } := by
    rw [computeResize_eq w h tw th hh hth, if_neg (by omega), hwidth]
  refine ⟨?_, hres, ?_, ?_, hheight, hwidth⟩
  · rw [gt_iff_lt, div_lt_div_iff₀ (by exact_mod_cast hth) (by exact_mod_cast hh), not_lt]
    exact_mod_cast Nat.le_of_eq heq
  · rw [hres]
    dsimp only
    rw [pasteOffset_eq_ediv]
    omega
  · rw [hres]
    dsimp only
    rw [pasteOffset_eq_ediv]
    omega

/-- Witness for C6 at a 1920x1080 source and the 1280x720 target. -/
theorem aspect_equal_fills_witness :
    ¬ ((1920 : ℚ) / (1080 : ℚ) > (1280 : ℚ) / (720 : ℚ)) ∧
    computeResize 1920 1080 1280 720 = { width := 1280, height := 720 } ∧
    pasteOffset 1280 (computeResize 1920 1080 1280 720).width = 0 ∧
    pasteOffset 720 (computeResize 1920 1080 1280 720).height = 0 ∧
    1280 * 1080 / 1920 = 720 ∧ 720 * 1920 / 1080 = 1280 :=
  aspect_equal_fills 1920 1080 1280 720 (by decide) (by decide) (by decide) (by decide) (by decide)

/-- C7: a strictly wider source is resized to the full target width, with
top and bottom bars that differ by at most one pixel; a strictly taller
source is resized to the full target height, with left and right bars
that differ by at most one pixel; the paste offset is the floor division
`(target - result) // 2` on each axis. -/
theorem padding_bars_centered (w h tw th : Nat)
    (hw : 0 < w) (hh : 0 < h) (htw : 0 < tw) (hth : 0 < th) :
    (w * th > tw * h →
      (computeResize w h tw th).width = tw ∧
      pasteOffset tw (computeResize w h tw th).width = 0 ∧
      pasteOffset th (computeResize w h tw th).height ≤
        (th : Int) - ((computeResize w h tw th).height : Int) -
          pasteOffset th (computeResize w h tw th).height ∧
      ((th : Int) - ((computeResize w h tw th).height : Int) -
          pasteOffset th (computeResize w h tw th).height) -
        pasteOffset th (computeResize w h tw th).height ≤ 1) ∧
    (w * th < tw * h →
      (computeResize w h tw th).height = th ∧
      pasteOffset th (computeResize w h tw th).height = 0 ∧
      pasteOffset tw (computeResize w h tw th).width ≤
        (tw : Int) - ((computeResize w h tw th).width : Int) -
          pasteOffset tw (computeResize w h tw th).width ∧
      ((tw : Int) - ((computeResize w h tw th).width : Int) -
          pasteOffset tw (computeResize w h tw th).width) -
        pasteOffset tw (computeResize w h tw th).width ≤ 1) ∧
    pasteOffset tw (computeResize w h tw th).width =
      Int.fdiv ((tw : Int) - ((computeResize w h tw th).width : Int)) 2 ∧
    pasteOffset th (computeResize w h tw th).height =
      Int.fdiv ((th : Int) - ((computeResize w h tw th).height : Int)) 2 := by
  refine ⟨fun hgt => ?_, fun hlt => ?_, rfl, rfl⟩
  · have hres : computeResize w h tw th = { width := tw, height := tw * h / w } := by
      rw [computeResize_eq w h tw th hh hth, if_pos hgt]
    rw [hres]
    dsimp only
    refine ⟨rfl, ?_, (bars_balanced th (tw * h / w)).1, (bars_balanced th (tw * h / w)).2⟩
    rw [pasteOffset_eq_ediv]
    omega
  · have hres : computeResize w h tw th = { width := th * w / h, height := th } := by
      rw [computeResize_eq w h tw th hh hth, if_neg (by omega)]
    rw [hres]
    dsimp only
    refine ⟨rfl, ?_, (bars_balanced tw (th * w / h)).1, (bars_balanced tw (th * w / h)).2⟩
    rw [pasteOffset_eq_ediv]
    omega

/-- Witness for C7: a strictly wider 1920x720 source against the 1280x720
target. -/
theorem padding_bars_centered_witness :
    (computeResize 1920 720 1280 720).width = 1280 ∧
    pasteOffset 1280 (computeResize 1920 720 1280 720).width = 0 ∧
    pasteOffset 720 (computeResize 1920 720 1280 720).height ≤
      (720 : Int) - ((computeResize 1920 720 1280 720).height : Int) -
        pasteOffset 720 (computeResize 1920 720 1280 720).height ∧
    ((720 : Int) - ((computeResize 1920 720 1280 720).height : Int) -
        pasteOffset 720 (computeResize 1920 720 1280 720).height) -
      pasteOffset 720 (computeResize 1920 720 1280 720).height ≤ 1 :=
  (padding_bars_centered 1920 720 1280 720
    (by decide) (by decide) (by decide) (by decide)).1 (by decide)

/-- C8 counterexample: when the parent `images` directory is missing,
`output_dir.mkdir(exist_ok=True)` (with the default `parents=False`)
raises `FileNotFoundError` instead of creating the output directory. -/
theorem mkdir_missing_parent :
    setupOutputDir ⟨[["assets"], ["assets", "scripts"]]⟩ ["assets"] =
      .error "FileNotFoundError" := rfl

/-- C8 amended: whenever the parent `images` directory exists, the
directory setup succeeds — creating `images/processed` if absent, raising
no error if it already exists — and afterwards the output directory
exists. -/
theorem mkdir_with_parent (fs : Filesystem) (base : List String)
    (hparent : base ++ ["images"] ∈ fs.dirs) :
    ∃ fs2, setupOutputDir fs base = .ok fs2 ∧
      base ++ ["images", "processed"] ∈ fs2.dirs := by
  unfold setupOutputDir mkdirExistOk
  by_cases hmem : base ++ ["images", "processed"] ∈ fs.dirs
  · rw [if_pos hmem]
    exact ⟨fs, rfl, hmem⟩
  · rw [if_neg hmem]
    have hpar : parentDir (base ++ ["images", "processed"]) = base ++ ["images"] := by
      unfold parentDir
      rw [show base ++ ["images", "processed"] = (base ++ ["images"]) ++ ["processed"] by simp]
      exact List.dropLast_concat
    rw [hpar, if_pos hparent]
    exact ⟨⟨(base ++ ["images", "processed"]) :: fs.dirs⟩, rfl, List.mem_cons_self _ _⟩

/-- Witness for C8 amended: with `assets/images` present, setup succeeds. -/
theorem mkdir_with_parent_witness :
    (["assets"] ++ ["images"] ∈ (⟨[["assets"], ["assets", "images"]]⟩ : Filesystem).dirs) ∧
    ∃ fs2, setupOutputDir ⟨[["assets"], ["assets", "images"]]⟩ ["assets"] = .ok fs2 ∧
      ["assets"] ++ ["images", "processed"] ∈ fs2.dirs :=
  ⟨by decide, mkdir_with_parent ⟨[["assets"], ["assets", "images"]]⟩ ["assets"] (by decide)⟩

/-- C9: the batch loop visits every one of the four hard-coded names to
completion; a missing file contributes exactly the "not found" line and
no output, and a file whose decode fails contributes exactly the caught
error line and no output — nothing escapes the loop. -/
theorem batch_loop_robust (fileExists : String → Bool)
    (decode : String → Except String PILImage) (save : String → Except String Unit)
    (imageDir outputDir : String) :
    (batchOutcomes fileExists decode save imageDir outputDir).length = projectImages.length ∧
    ∀ name ∈ projectImages,
      (fileExists (imageDir ++ "/" ++ name) = false →
        ProcResult.mk ["Image not found: " ++ name] none ∈
          batchOutcomes fileExists decode save imageDir outputDir) ∧
      (∀ e, fileExists (imageDir ++ "/" ++ name) = true →
        decode (imageDir ++ "/" ++ name) = .error e →
        ProcResult.mk [errorMessage (imageDir ++ "/" ++ name) e] none ∈
          batchOutcomes fileExists decode save imageDir outputDir) := by
  constructor
  · simp [batchOutcomes]
  · intro name hname
    constructor
    · intro hfe
      unfold batchOutcomes
      refine List.mem_map.mpr ⟨name, hname, ?_⟩
      simp [hfe]
    · intro e hfe hde
      unfold batchOutcomes
      refine List.mem_map.mpr ⟨name, hname, ?_⟩
      simp [hfe, hde, processImage]

/-- Witness for C9: with no file present, the first hard-coded name yields
its "not found" outcome. -/
theorem batch_loop_robust_witness :
    ProcResult.mk ["Image not found: " ++ "sih.png"] none ∈
      batchOutcomes (fun _ => false) (fun _ => .error "e") (fun _ => .ok ()) "imgs" "out" :=
  ((batch_loop_robust (fun _ => false) (fun _ => .error "e") (fun _ => .ok ())
    "imgs" "out").2 "sih.png" (by decide)).1 rfl

/-- C10: the computed resize never exceeds the target on either axis, so
both paste offsets are non-negative and the resized image lies entirely
inside the target canvas. -/
theorem resized_fits_canvas (w h tw th : Nat)
    (hw : 0 < w) (hh : 0 < h) (htw : 0 < tw) (hth : 0 < th) :
    (computeResize w h tw th).width ≤ tw ∧
    (computeResize w h tw th).height ≤ th ∧
    0 ≤ pasteOffset tw (computeResize w h tw th).width ∧
    0 ≤ pasteOffset th (computeResize w h tw th).height ∧
    pasteOffset tw (computeResize w h tw th).width +
      ((computeResize w h tw th).width : Int) ≤ (tw : Int) ∧
    pasteOffset th (computeResize w h tw th).height +
      ((computeResize w h tw th).height : Int) ≤ (th : Int) := by
  rw [computeResize_eq w h tw th hh hth]
  by_cases hgt : w * th > tw * h
  · rw [if_pos hgt]
    dsimp only
    have hle : tw * h / w < th := by
      rw [Nat.div_lt_iff_lt_mul hw]
      calc tw * h < w * th := hgt
        _ = th * w := mul_comm w th
    refine ⟨le_refl tw, le_of_lt hle, ?_, ?_, ?_, ?_⟩ <;> rw [pasteOffset_eq_ediv] <;> omega
  · rw [if_neg hgt]
    dsimp only
    have hle : th * w / h ≤ tw := by
      have hmul : th * w ≤ tw * h := by
        rw [mul_comm th w]
        exact not_lt.mp hgt
      calc th * w / h ≤ tw * h / h := Nat.div_le_div_right hmul
        _ = tw := Nat.mul_div_cancel _ hh
    refine ⟨hle, le_refl th, ?_, ?_, ?_, ?_⟩ <;> rw [pasteOffset_eq_ediv] <;> omega

/-- Witness for C10 at a wide 3000x500 source. -/
theorem resized_fits_canvas_witness :
    (computeResize 3000 500 1280 720).width ≤ 1280 ∧
    (computeResize 3000 500 1280 720).height ≤ 720 ∧
    0 ≤ pasteOffset 1280 (computeResize 3000 500 1280 720).width ∧
    0 ≤ pasteOffset 720 (computeResize 3000 500 1280 720).height ∧
    pasteOffset 1280 (computeResize 3000 500 1280 720).width +
      ((computeResize 3000 500 1280 720).width : Int) ≤ (1280 : Int) ∧
    pasteOffset 720 (computeResize 3000 500 1280 720).height +
      ((computeResize 3000 500 1280 720).height : Int) ≤ (720 : Int) :=
  resized_fits_canvas 3000 500 1280 720 (by decide) (by decide) (by decide) (by decide)

end ImageProcessor
